import Mathlib

/-!
Shallow embedding of `src/hack1.py` (Shivayogip/hackathon1), the meeting
summarizer application: the recording worker (`AudioProcessingThread`), its
summarizer (`generate_summary`), and the session controller
(`MeetingSummarizerApp.start_recording` / `stop_recording`).

External engines (the vosk recognizer, the sumy/nltk sentence tokenizer and
the LSA sentence rating) are modelled at their interface boundary and passed
as explicit function parameters, so every theorem quantifies over them.
-/

namespace Hack1

/-! ## Summarizer: `AudioProcessingThread.generate_summary` (hack1.py:59-67) -/

/-- Splits a character list on whitespace runs, dropping empty tokens;
`acc` holds the reversed characters of the word being read. -/
def pySplitAux : List Char → List Char → List String
  | [], [] => []
  | [], acc => [String.mk acc.reverse]
  | c :: cs, acc =>
    if c.isWhitespace then
      match acc with
      | [] => pySplitAux cs []
      | _ => String.mk acc.reverse :: pySplitAux cs []
    else
      pySplitAux cs (c :: acc)

/-- Python `text.split()` (no separator argument): split on runs of
whitespace, dropping empty tokens.  `len(text.split())` is the word count
used by the 10-word guard at hack1.py:60. -/
def pyWords (s : String) : List String :=
  pySplitAux s.data []

/-- Modelled from the spec: the sentence selection performed by the external
sumy library call `LsaSummarizer()(parser.document, 2)` at hack1.py:64-65
(sumy is not part of this repository).  Per the spec, the summarizer scores
sentences by a singular-value based rating and returns the top-`count`
sentences in their original order of appearance.  `rating` abstracts the
numeric SVD-based score of the sentence at each document position; selection
is: stable-sort by rating descending, take `count`, restore document order. -/
def getBestSentences (rating : Nat → Nat) (sentences : List String) (count : Nat) :
    List String :=
  let infos := sentences.enum
  let byRating := infos.mergeSort (fun a b => decide (rating b.1 ≤ rating a.1))
  let top := byRating.take count
  let byOrder := top.mergeSort (fun a b => decide (a.1 ≤ b.1))
  byOrder.map Prod.snd

/-- Embedding of `AudioProcessingThread.generate_summary` (hack1.py:59-67).
`tok` is the external sentence tokenizer (`PlaintextParser.from_string` with
nltk's english `Tokenizer`), `rating` the external LSA sentence score; the
word-count guard, the sentinel string, the `" ".join`, and the
`"Summary: "` prefix are translated directly from the source. -/
def generate_summary (tok : String → List String) (rating : Nat → Nat)
    (text : String) : String :=
  if (pyWords text).length < 10 then
    "Summary: Not enough data for summarization."
  else
    "Summary: " ++ String.intercalate " " (getBestSentences rating (tok text) 2)

/-! ## Recognition worker: `AudioProcessingThread.run` (hack1.py:44-57) -/

/-- A raw audio byte block, as queued by the sounddevice callback. -/
abbrev Frame := List Nat

/-- Message of a per-frame decode failure raised inside the loop. -/
abbrev DecodeError := String

/-- A Qt signal emission: `transcription_signal.emit` carries the cumulative
transcription, `summary_signal.emit` carries the summary text. -/
inductive Notification where
  | transcript (text : String)
  | summaryReady (text : String)
deriving DecidableEq, Repr

/-- Interface model of the vosk recognizer step at hack1.py:50-52:
`AcceptWaveform(data)` plus, on a boundary, `json.loads(Result()).get("text", "")`.
`Except.ok none` = no utterance boundary; `Except.ok (some text)` = boundary
finalizing `text`; `Except.error e` = the call raised. -/
abbrev Accept := Frame → Except DecodeError (Option String)

/-- The drain loop of `AudioProcessingThread.run` (hack1.py:47-54), over the
frames popped while `self.recording` held.  The loop body has no exception
handler, so the first failing `accept` aborts the loop: the returned triple is
(transcription so far, signals emitted so far, the escaped error if any).
On a boundary the source does `transcription += text + " "` and then emits the
cumulative transcription. -/
def drainLoop (accept : Accept) :
    List Frame → String → List Notification →
      String × List Notification × Option DecodeError
  | [], transcription, notifs => (transcription, notifs, none)
  | f :: fs, transcription, notifs =>
    match accept f with
    | .error e => (transcription, notifs, some e)
    | .ok none => drainLoop accept fs transcription notifs
    | .ok (some text) =>
      drainLoop accept fs (transcription ++ text ++ " ")
        (notifs ++ [Notification.transcript (transcription ++ text ++ " ")])

/-- Embedding of `AudioProcessingThread.run` (hack1.py:44-57): drain the
frames processed during the session starting from the empty transcription,
then — only if no exception escaped the loop — compute the summary of the
final transcription and emit it once via `summary_signal`. -/
def run (accept : Accept) (tok : String → List String) (rating : Nat → Nat)
    (frames : List Frame) : String × List Notification × Option DecodeError :=
  match drainLoop accept frames "" [] with
  | (t, ns, some e) => (t, ns, some e)
  | (t, ns, none) =>
    (t, ns ++ [Notification.summaryReady (generate_summary tok rating t)], none)

/-- The transcript text produced by a list of finalized segments: each
segment is followed by a single space (`transcription += text + " "`). -/
def segsText : List String → String
  | [] => ""
  | s :: rest => s ++ " " ++ segsText rest

/-! ## Session controller: `MeetingSummarizerApp` (hack1.py:138-153) -/

/-- State of the sounddevice `RawInputStream` held in `self.stream`. -/
inductive StreamSt where
  | started
  | closed
deriving DecidableEq, Repr

/-- State of the `AudioProcessingThread` held in `self.audio_thread`:
its `recording` flag (hack1.py:42, 69-70). -/
structure ThreadSt where
  recording : Bool
deriving DecidableEq, Repr

/-- Controller-visible state of `MeetingSummarizerApp`.  `stream = none`
(resp. `audio_thread = none`) models the Python attribute not being set yet:
accessing it raises `AttributeError`.  `streams_created` and
`threads_created` count the `sd.RawInputStream(...)` and
`AudioProcessingThread(...)` constructions, i.e. the resources opened. -/
structure AppState where
  stream : Option StreamSt
  audio_thread : Option ThreadSt
  streams_created : Nat
  threads_created : Nat
deriving DecidableEq, Repr

/-- The state right after `initUI`: neither `self.stream` nor
`self.audio_thread` has been assigned. -/
def initState : AppState :=
  { stream := none, audio_thread := none, streams_created := 0, threads_created := 0 }

/-- Errors observable at the controller boundary.  `attributeError` is
Python's `AttributeError` (attribute accessed before assignment).
`notRunningError` and `alreadyRunningError` are the errors *named by the
spec*; they appear here only so the spec's claims can be stated — no code in
`hack1.py` defines or raises them. -/
inductive PyError where
  | attributeError
  | notRunningError
  | alreadyRunningError
deriving DecidableEq, Repr

/-- Embedding of `MeetingSummarizerApp.start_recording` (hack1.py:138-145):
unconditionally constructs and starts a fresh `sd.RawInputStream` and a fresh
`AudioProcessingThread` (whose `recording` flag is `True`), overwriting
`self.stream` and `self.audio_thread`.  There is no running-session guard in
the source, so no error path exists. -/
def start_recording (s : AppState) : Except PyError AppState :=
  Except.ok
    { stream := some StreamSt.started
      audio_thread := some { recording := true }
      streams_created := s.streams_created + 1
      threads_created := s.threads_created + 1 }

/-- Embedding of `MeetingSummarizerApp.stop_recording` (hack1.py:147-153):
`self.stream.stop(); self.stream.close()` — raising `AttributeError` when
`self.stream` was never assigned — then, if `self.audio_thread` exists and is
running, clears its `recording` flag and joins it. -/
def stop_recording (s : AppState) : Except PyError AppState :=
  match s.stream with
  | none => Except.error PyError.attributeError
  | some _ =>
    let s1 : AppState := { s with stream := some StreamSt.closed }
    match s1.audio_thread with
    | none => Except.ok s1
    | some t =>
      Except.ok { s1 with audio_thread := some { t with recording := false } }

/-- A state in which a session is active: stream started and worker
recording. -/
def runningState : AppState :=
  { stream := some StreamSt.started
    audio_thread := some { recording := true }
    streams_created := 1
    threads_created := 1 }

/-! ## Concrete decoders used by scenarios and counterexamples -/

/-- Is a notification a summary-ready signal? -/
def isSummaryReady : Notification → Bool
  | Notification.summaryReady _ => true
  | Notification.transcript _ => false

/-- Decoder of end-to-end scenario 1: three frames, of which the first and
third complete utterance boundaries "hello world" and "this is a test". -/
def decScenario1 : Frame → Option String
  | [0] => some "hello world"
  | [2] => some "this is a test"
  | _ => none

/-- Decoder with an empty-text boundary: frame [0] finalizes "hello",
frame [1] finalizes the empty string. -/
def decEmptySeg : Frame → Option String
  | [0] => some "hello"
  | [1] => some ""
  | _ => none

/-- Accept function of the C3 counterexample: frame [0] raises a decode
error, any other frame decodes to a boundary "ok". -/
def acceptC3 : Accept := fun f =>
  if f = [0] then Except.error "decode failure" else Except.ok (some "ok")

/-! ## Helper lemmas -/

/-- When every `accept` call succeeds (decoder modelled by the total function
`dec`), the drain loop never aborts: it appends each finalized segment plus a
single space, and emits one cumulative-transcript signal per boundary. -/
theorem drainLoop_total (dec : Frame → Option String) (fs : List Frame)
    (t : String) (ns : List Notification) :
    ∃ ms : List Notification,
      drainLoop (fun f => Except.ok (dec f)) fs t ns
        = (t ++ segsText (fs.filterMap dec), ns ++ ms, none)
      ∧ ms.length = (fs.filterMap dec).length
      ∧ ∀ n ∈ ms, ∃ s, n = Notification.transcript s := by
  induction fs generalizing t ns with
  | nil =>
    exact ⟨[], by simp [drainLoop, segsText], by simp, by simp⟩
  | cons f fs ih =>
    cases hdec : dec f with
    | none =>
      obtain ⟨ms, h1, h2, h3⟩ := ih t ns
      exact ⟨ms, by simpa [drainLoop, hdec] using h1, by simpa [hdec] using h2, h3⟩
    | some x =>
      obtain ⟨ms, h1, h2, h3⟩ := ih (t ++ x ++ " ")
        (ns ++ [Notification.transcript (t ++ x ++ " ")])
      refine ⟨Notification.transcript (t ++ x ++ " ") :: ms, ?_, ?_, ?_⟩
      · simpa [drainLoop, hdec, segsText, String.append_assoc] using h1
      · simpa [hdec] using h2
      · intro n hn
        rcases List.mem_cons.mp hn with hn | hn
        · exact ⟨t ++ x ++ " ", by rw [hn]⟩
        · exact h3 n hn

/-- Concatenation of segments distributes over list append. -/
theorem segsText_append (a b : List String) :
    segsText (a ++ b) = segsText a ++ segsText b := by
  induction a with
  | nil => simp [segsText]
  | cons x xs ih => simp [segsText, ih, String.append_assoc]

/-- If every frame of `pre` is accepted without error and `accept f` raises
`e`, then draining `pre ++ f :: post` yields the transcription and signals of
`pre` alone together with the escaped error: the frames of `post` are never
reached. -/
theorem drainLoop_append_error (accept : Accept) (pre : List Frame)
    (hpre : ∀ g ∈ pre, ∃ r, accept g = Except.ok r)
    (t : String) (ns : List Notification) (f : Frame) (post : List Frame)
    (e : DecodeError) (hf : accept f = Except.error e) :
    drainLoop accept (pre ++ f :: post) t ns
      = ((drainLoop accept pre t ns).1, (drainLoop accept pre t ns).2.1, some e) := by
  induction pre generalizing t ns with
  | nil => simp [drainLoop, hf]
  | cons g pre ih =>
    obtain ⟨r, hr⟩ := hpre g (List.mem_cons_self g pre)
    have hpre' : ∀ g' ∈ pre, ∃ r', accept g' = Except.ok r' :=
      fun g' hg' => hpre g' (List.mem_cons_of_mem g hg')
    cases r with
    | none => simp [drainLoop, hr, ih hpre']
    | some x => simp [drainLoop, hr, ih hpre']

/-- Every signal present after draining is either one of the initial signals
or an incremental-transcript signal: the drain loop itself never emits a
summary-ready signal. -/
theorem drainLoop_notifs_transcript (accept : Accept) (fs : List Frame)
    (t : String) (ns : List Notification) :
    ∀ n ∈ (drainLoop accept fs t ns).2.1,
      n ∈ ns ∨ ∃ s, n = Notification.transcript s := by
  induction fs generalizing t ns with
  | nil => intro n hn; exact Or.inl (by simpa [drainLoop] using hn)
  | cons f fs ih =>
    intro n hn
    rcases haccept : accept f with e | r
    · simp only [drainLoop, haccept] at hn
      exact Or.inl hn
    · cases r with
      | none =>
        simp only [drainLoop, haccept] at hn
        exact ih t ns n hn
      | some x =>
        simp only [drainLoop, haccept] at hn
        rcases ih (t ++ x ++ " ")
          (ns ++ [Notification.transcript (t ++ x ++ " ")]) n hn with hmem | hx
        · rcases List.mem_append.mp hmem with hmem | hmem
          · exact Or.inl hmem
          · exact Or.inr ⟨t ++ x ++ " ", by simpa using hmem⟩
        · exact Or.inr hx

/-- The selected sentences form a sublist of the document's sentence list:
they are verbatim sentences, kept in their original order of appearance. -/
theorem getBestSentences_sublist (rating : Nat → Nat) (sentences : List String)
    (count : Nat) :
    List.Sublist (getBestSentences rating sentences count) sentences := by
  unfold getBestSentences
  set infos := sentences.enum with hinfos
  set byRating := infos.mergeSort (fun a b => decide (rating b.1 ≤ rating a.1))
    with hbr
  set byOrder := (byRating.take count).mergeSort (fun a b => decide (a.1 ≤ b.1))
    with hbo
  have hsubperm : List.Subperm byOrder infos :=
    ((List.mergeSort_perm (byRating.take count) _).subperm.trans
      (List.take_sublist count byRating).subperm).trans
      (List.mergeSort_perm infos _).subperm
  have hsorted₂ : infos.Pairwise (fun a b => a.1 < b.1) := by
    have := List.sorted_lt_range sentences.length
    rw [← List.enum_map_fst sentences] at this
    exact List.pairwise_map.mp this
  have hle : byOrder.Pairwise (fun a b : Nat × String => a.1 ≤ b.1) := by
    have := @List.sorted_mergeSort (Nat × String)
      (fun a b => decide (a.1 ≤ b.1))
      (fun a b c hab hbc => by
        simp only [decide_eq_true_eq] at hab hbc ⊢
        omega)
      (fun a b => by
        simp only [Bool.or_eq_true, decide_eq_true_eq]
        omega)
      (byRating.take count)
    exact this.imp (by simp only [decide_eq_true_eq]; exact id)
  have hnodup : byOrder.Pairwise (fun a b : Nat × String => a.1 ≠ b.1) := by
    obtain ⟨l', hperm, hsl⟩ := hsubperm
    have hinf : (infos.map Prod.fst).Nodup := by
      rw [hinfos, List.enum_map_fst]
      exact List.nodup_range _
    have hl' : (l'.map Prod.fst).Nodup :=
      (hsl.map Prod.fst).nodup hinf
    have hbo' : (byOrder.map Prod.fst).Nodup :=
      ((hperm.map Prod.fst).nodup_iff).mp hl'
    exact List.pairwise_map.mp hbo'
  have hsorted₁ : byOrder.Pairwise (fun a b => a.1 < b.1) :=
    (hle.and hnodup).imp (fun hab => Nat.lt_of_le_of_ne hab.1 hab.2)
  haveI : IsAntisymm (Nat × String) (fun a b => a.1 < b.1) :=
    ⟨fun a _ h1 h2 => absurd (Nat.lt_trans h1 h2) (Nat.lt_irrefl a.1)⟩
  have hsl : List.Sublist byOrder infos :=
    List.sublist_of_subperm_of_sorted hsubperm hsorted₁ hsorted₂
  have hmap := hsl.map Prod.snd
  rw [hinfos, List.enum_map_snd] at hmap
  exact hmap

/-- The selection keeps `min count n` of the document's `n` sentences. -/
theorem getBestSentences_length (rating : Nat → Nat) (sentences : List String)
    (count : Nat) :
    (getBestSentences rating sentences count).length
      = min count sentences.length := by
  unfold getBestSentences
  simp [List.length_mergeSort, List.length_take, List.enum_length]

/-! ## Claims about the session controller -/

/-- C1, counterexample: `stop()` with no preceding `start()` fails with
Python's `AttributeError` (`self.stream` was never assigned), not with the
`NotRunningError` named by the spec — no such error exists in the code. -/
theorem stop_without_start_not_notRunningError :
    stop_recording initState = Except.error PyError.attributeError
      ∧ PyError.attributeError ≠ PyError.notRunningError :=
  ⟨rfl, by decide⟩

/-- C1, amended: for every controller state in which `self.stream` was never
assigned (no preceding `start_recording`), `stop_recording` fails with
`AttributeError`; the error is raised before any assignment, so no state
change occurs and no resource is opened or closed. -/
theorem stop_without_start_attributeError (s : AppState) (h : s.stream = none) :
    stop_recording s = Except.error PyError.attributeError := by
  unfold stop_recording
  rw [h]

/-- C1, witness: the amended theorem applied to the freshly initialized
application state. -/
theorem stop_without_start_attributeError_witness :
    initState.stream = none
      ∧ stop_recording initState = Except.error PyError.attributeError :=
  ⟨rfl, stop_without_start_attributeError initState rfl⟩

/-- C2, counterexample: calling `start_recording` while a session is active
does not fail with `AlreadyRunningError` (or any error): it succeeds and
constructs a second stream and a second worker (both creation counters grow
from 1 to 2). -/
theorem start_while_running_no_error :
    start_recording runningState
        = Except.ok
            { stream := some StreamSt.started
              audio_thread := some { recording := true }
              streams_created := 2
              threads_created := 2 }
      ∧ ∀ e : PyError, start_recording runningState ≠ Except.error e := by
  refine ⟨rfl, ?_⟩
  intro e h
  simp [start_recording] at h

/-- C2, amended: `start_recording` called while a worker is already recording
does not fail; it unconditionally opens a fresh audio stream and a fresh
recording worker (both creation counters increment), overwriting the
controller's references to the previous ones — the previous worker's
in-progress transcript, local to its loop, is untouched but orphaned. -/
theorem start_while_running_succeeds (s : AppState)
    (_h : s.audio_thread = some { recording := true }) :
    start_recording s
      = Except.ok
          { stream := some StreamSt.started
            audio_thread := some { recording := true }
            streams_created := s.streams_created + 1
            threads_created := s.threads_created + 1 } := rfl

/-- C2, witness: the amended theorem applied to the canonical running state. -/
theorem start_while_running_succeeds_witness :
    runningState.audio_thread = some { recording := true }
      ∧ start_recording runningState
          = Except.ok
              { stream := some StreamSt.started
                audio_thread := some { recording := true }
                streams_created := runningState.streams_created + 1
                threads_created := runningState.threads_created + 1 } :=
  ⟨rfl, start_while_running_succeeds runningState rfl⟩

/-! ## Claims about the summarizer -/

/-- C8: the summarizer is a deterministic pure function of the transcript
(for fixed tokenizer and rating): two invocations on the same text return
identical strings. -/
theorem generate_summary_deterministic (tok : String → List String)
    (rating : Nat → Nat) (text s₁ s₂ : String)
    (h₁ : s₁ = generate_summary tok rating text)
    (h₂ : s₂ = generate_summary tok rating text) : s₁ = s₂ :=
  h₁.trans h₂.symm

/-- C8, witness: two invocations on the transcript "the quick brown fox"
both return the sentinel, hence are equal. -/
theorem generate_summary_deterministic_witness :
    "Summary: Not enough data for summarization."
        = generate_summary (fun _ => []) (fun _ => 0) "the quick brown fox"
      ∧ "Summary: Not enough data for summarization."
        = generate_summary (fun _ => []) (fun _ => 0) "the quick brown fox"
      ∧ ("Summary: Not enough data for summarization." : String)
        = "Summary: Not enough data for summarization." :=
  ⟨by decide, by decide,
    generate_summary_deterministic (fun _ => []) (fun _ => 0)
      "the quick brown fox" _ _ (by decide) (by decide)⟩

/-- C9: every string the summarizer returns — on the insufficient-data branch
and on the extractive branch alike — begins with the prefix "Summary: ". -/
theorem summary_starts_with_label (tok : String → List String)
    (rating : Nat → Nat) (text : String) :
    ∃ rest, generate_summary tok rating text = "Summary: " ++ rest := by
  unfold generate_summary
  by_cases h : (pyWords text).length < 10
  · exact ⟨"Not enough data for summarization.", by rw [if_pos h]; decide⟩
  · exact ⟨String.intercalate " " (getBestSentences rating (tok text) 2),
      by rw [if_neg h]⟩

/-- C4: a transcript of fewer than 10 words yields the fixed sentinel
summary, for every tokenizer and every rating — the extractive branch is
never consulted. -/
theorem short_transcript_sentinel (tok : String → List String)
    (rating : Nat → Nat) (text : String) (h : (pyWords text).length < 10) :
    generate_summary tok rating text
      = "Summary: Not enough data for summarization." := by
  unfold generate_summary
  rw [if_pos h]

/-- C4, witness: the 4-word transcript of end-to-end scenario 2. -/
theorem short_transcript_sentinel_witness :
    (pyWords "the quick brown fox").length < 10
      ∧ generate_summary (fun t => [t]) (fun _ => 1) "the quick brown fox"
          = "Summary: Not enough data for summarization." :=
  ⟨by decide,
    short_transcript_sentinel (fun t => [t]) (fun _ => 1)
      "the quick brown fox" (by decide)⟩

/-- C5: on a transcript of at least 10 words the summarizer tokenizes it
into sentences, selects the top-2 by the (abstracted) singular-value rating,
and returns them concatenated in their original order of appearance —
the selection is a sublist of the tokenized sentence list, of length
`min 2 (number of sentences)` — prefixed with the fixed label "Summary: ". -/
theorem long_transcript_extractive (tok : String → List String)
    (rating : Nat → Nat) (text : String)
    (h : 10 ≤ (pyWords text).length) :
    generate_summary tok rating text
        = "Summary: "
          ++ String.intercalate " " (getBestSentences rating (tok text) 2)
      ∧ List.Sublist (getBestSentences rating (tok text) 2) (tok text)
      ∧ (getBestSentences rating (tok text) 2).length
          = min 2 (tok text).length := by
  refine ⟨?_, getBestSentences_sublist rating (tok text) 2,
    getBestSentences_length rating (tok text) 2⟩
  unfold generate_summary
  rw [if_neg (by omega)]

/-- C5, witness: the amended-free theorem applied to an 11-word transcript
with a one-sentence tokenizer and a constant rating. -/
theorem long_transcript_extractive_witness :
    10 ≤ (pyWords "one two three four five six seven eight nine ten eleven").length
      ∧ (generate_summary (fun t => [t]) (fun _ => 1)
            "one two three four five six seven eight nine ten eleven"
          = "Summary: "
            ++ String.intercalate " "
              (getBestSentences (fun _ => 1)
                ((fun t => [t]) "one two three four five six seven eight nine ten eleven") 2)
        ∧ List.Sublist
            (getBestSentences (fun _ => 1)
              ((fun t => [t]) "one two three four five six seven eight nine ten eleven") 2)
            ((fun t => [t]) "one two three four five six seven eight nine ten eleven")
        ∧ (getBestSentences (fun _ => 1)
              ((fun t => [t]) "one two three four five six seven eight nine ten eleven") 2).length
            = min 2 ((fun t => [t])
                "one two three four five six seven eight nine ten eleven").length) :=
  ⟨by decide,
    long_transcript_extractive (fun t => [t]) (fun _ => 1)
      "one two three four five six seven eight nine ten eleven" (by decide)⟩

/-! ## Claims about the recognition worker loop -/

/-- C6: for every decoder and frame sequence, the transcription equals the
finalized segments concatenated in production order, each followed by a
single space, with one incremental-transcript signal per segment; in
particular three frames resolving to the boundaries "hello world" and
"this is a test" give "hello world this is a test " and exactly two
incremental-transcript signals. -/
theorem transcript_is_join_of_segments :
    (∀ (dec : Frame → Option String) (frames : List Frame),
      ∃ ms : List Notification,
        drainLoop (fun f => Except.ok (dec f)) frames "" []
          = (segsText (frames.filterMap dec), ms, none)
        ∧ ms.length = (frames.filterMap dec).length)
    ∧ drainLoop (fun f => Except.ok (decScenario1 f)) [[0], [1], [2]] "" []
        = ("hello world this is a test ",
            [Notification.transcript "hello world ",
              Notification.transcript "hello world this is a test "],
            none) := by
  constructor
  · intro dec frames
    obtain ⟨ms, h1, h2, _⟩ := drainLoop_total dec frames "" []
    exact ⟨ms, by simpa using h1, h2⟩
  · decide

/-- C7: after the drain loop exits, `run` computes the summary of the final
transcription and emits exactly one summary-ready signal, placed after all
the incremental-transcript signals; the worker is then done (no pending
error), eligible for a fresh cycle. -/
theorem summary_emitted_once_on_stop (dec : Frame → Option String)
    (tok : String → List String) (rating : Nat → Nat) (frames : List Frame) :
    ∃ (t : String) (ms : List Notification),
      run (fun f => Except.ok (dec f)) tok rating frames
        = (t, ms ++ [Notification.summaryReady (generate_summary tok rating t)],
            none)
      ∧ (∀ n ∈ ms, ∃ s, n = Notification.transcript s)
      ∧ (ms ++ [Notification.summaryReady (generate_summary tok rating t)]).countP
          isSummaryReady = 1 := by
  obtain ⟨ms, h1, _, h3⟩ := drainLoop_total dec frames "" []
  refine ⟨segsText (frames.filterMap dec), ms, ?_, h3, ?_⟩
  · unfold run
    rw [show drainLoop (fun f => Except.ok (dec f)) frames "" []
        = (segsText (frames.filterMap dec), ms, none) by simpa using h1]
  · have hms : ms.countP isSummaryReady = 0 := by
      rw [List.countP_eq_zero]
      intro n hn
      obtain ⟨s, hs⟩ := h3 n hn
      simp [hs, isSummaryReady]
    simp [List.countP_append, hms, List.countP_cons, isSummaryReady]

/-- C10: an accepted frame completing a boundary whose finalized text is
empty still appends a separator (the transcription grows by exactly one
space) and still emits an incremental-transcript signal; concretely,
boundaries "hello" then "" give the transcription "hello  " — two
consecutive spaces — and two signals. -/
theorem empty_segment_still_appends (dec : Frame → Option String)
    (pre : List Frame) (f : Frame) (h : dec f = some "") :
    (∃ ms : List Notification,
      drainLoop (fun g => Except.ok (dec g)) (pre ++ [f]) "" []
        = (segsText (pre.filterMap dec) ++ " ", ms, none)
      ∧ ms.length = (pre.filterMap dec).length + 1)
    ∧ drainLoop (fun g => Except.ok (decEmptySeg g)) [[0], [1]] "" []
        = ("hello  ",
            [Notification.transcript "hello ",
              Notification.transcript "hello  "],
            none) := by
  constructor
  · obtain ⟨ms, h1, h2, _⟩ := drainLoop_total dec (pre ++ [f]) "" []
    refine ⟨ms, ?_, ?_⟩
    · have hseg : segsText ((pre ++ [f]).filterMap dec)
          = segsText (pre.filterMap dec) ++ " " := by
        rw [List.filterMap_append, segsText_append]
        simp [h, segsText]
      simp only [String.empty_append, List.nil_append] at h1
      rw [hseg] at h1
      exact h1
    · simpa [List.filterMap_append, h] using h2
  · decide

/-- C10, witness: the theorem applied to the decoder whose second boundary
finalizes the empty string, with prefix frame [0] and empty-text frame [1]. -/
theorem empty_segment_still_appends_witness :
    decEmptySeg [1] = some ""
      ∧ ((∃ ms : List Notification,
            drainLoop (fun g => Except.ok (decEmptySeg g)) ([[0]] ++ [[1]]) "" []
              = (segsText (([[0]] : List Frame).filterMap decEmptySeg) ++ " ",
                  ms, none)
            ∧ ms.length = (([[0]] : List Frame).filterMap decEmptySeg).length + 1)
        ∧ drainLoop (fun g => Except.ok (decEmptySeg g)) [[0], [1]] "" []
            = ("hello  ",
                [Notification.transcript "hello ",
                  Notification.transcript "hello  "],
                none)) :=
  ⟨rfl, empty_segment_still_appends decEmptySeg [[0]] [1] rfl⟩

/-- C3, counterexample: with a decoder raising on the first of two frames,
the error escapes the loop (the run result carries it), the second frame is
never processed — its segment "ok " is absent, the transcription stays
empty — and no signal at all, in particular no summary, is emitted. -/
theorem decode_error_aborts_concrete :
    run acceptC3 (fun t => [t]) (fun _ => 0) [[0], [1]]
      = ("", [], some "decode failure") := by
  decide

/-- C3, amended: the loop body of `AudioProcessingThread.run` has no
exception handler, so a decode error on frame k escapes the worker loop: the
transcription and the emitted signals are exactly those produced by the
frames before k, the frames after k are never processed, and no summary is
emitted. -/
theorem decode_error_escapes_loop (accept : Accept)
    (tok : String → List String) (rating : Nat → Nat)
    (pre post : List Frame) (f : Frame) (e : DecodeError)
    (hpre : ∀ g ∈ pre, ∃ r, accept g = Except.ok r)
    (hf : accept f = Except.error e) :
    run accept tok rating (pre ++ f :: post)
      = ((drainLoop accept pre "" []).1, (drainLoop accept pre "" []).2.1, some e)
      ∧ ∀ s, Notification.summaryReady s ∉ (drainLoop accept pre "" []).2.1 := by
  constructor
  · unfold run
    rw [drainLoop_append_error accept pre hpre "" [] f post e hf]
  · intro s hs
    rcases drainLoop_notifs_transcript accept pre "" [] _ hs with hmem | ⟨s', hs'⟩
    · simp at hmem
    · exact Notification.noConfusion hs'

/-- C3, witness: the amended theorem applied to the counterexample decoder,
with an empty prefix and one unreached frame after the failing one. -/
theorem decode_error_escapes_loop_witness :
    (∀ g ∈ ([] : List Frame), ∃ r, acceptC3 g = Except.ok r)
    ∧ acceptC3 [0] = Except.error "decode failure"
    ∧ (run acceptC3 (fun t => [t]) (fun _ => 0) ([] ++ [0] :: [[1]])
        = ((drainLoop acceptC3 [] "" []).1,
            (drainLoop acceptC3 [] "" []).2.1, some "decode failure")
      ∧ ∀ s, Notification.summaryReady s ∉ (drainLoop acceptC3 [] "" []).2.1) :=
  ⟨by simp, by simp [acceptC3],
    decode_error_escapes_loop acceptC3 (fun t => [t]) (fun _ => 0)
      [] [[1]] [0] "decode failure" (by simp) (by simp [acceptC3])⟩

end Hack1
